import Mathlib

/-!
Verification of the iRASE data manager's COMSOL grid pipeline
(`irase_data_manager/simulator.py`) and article-metadata helper
(`irase_data_manager/utils.py`).

Numeric data is embedded over `ℚ`.  A flat sample (the result of
`np.loadtxt`) is a list of rows, each row a list of rationals.  The
64-bit floating point literals appearing in concrete scenarios are
embedded by their exact rational values; every floating point operation
performed on them in those scenarios is exact (the real result is
representable), so rational arithmetic coincides with IEEE-754 double
arithmetic there.
-/

/-- Entry `(r, c)` of a row-major matrix, with numpy-irrelevant
out-of-range accesses defaulting to `0`. -/
def matGet (data : List (List ℚ)) (r c : ℕ) : ℚ :=
  (data.getD r []).getD c 0

/-- Column `j` of the matrix: `data[:, j]`. -/
def col (data : List (List ℚ)) (j : ℕ) : List ℚ :=
  data.map fun r => r.getD j 0

/-- `np.diff` of a 1-D array: consecutive differences `a[i+1] - a[i]`. -/
def npDiff (l : List ℚ) : List ℚ :=
  List.zipWith (fun a b => b - a) l l.tail

/-- `data.shape[1]` for a (rectangular, nonempty) matrix. -/
def numCols (data : List (List ℚ)) : ℕ :=
  (data.headD []).length

/-- `np.allclose(a, b)` at numpy's default tolerances
`rtol=1e-5`, `atol=1e-8`: `|a - b| <= atol + rtol * |b|`. -/
def npAllclose (a b : ℚ) : Bool :=
  decide (|a - b| ≤ 1 / 100000000 + 1 / 100000 * |b|)

/-- Python `int()` applied to a (finite) real value: truncation toward
zero.  On a rational this is integer T-division of numerator by
denominator. -/
def pyInt (q : ℚ) : ℤ :=
  q.num.tdiv (q.den : ℤ)

/-- `data[:, 3:]` — drop the three coordinate columns of every row. -/
def dropCoords (data : List (List ℚ)) : List (List ℚ) :=
  data.map (List.drop 3)

/-- Fortran-order (column-major) linearization of a `rows × cols`
matrix: flat index `k` holds entry `(k % rows, k / rows)`. -/
def fortranFlat (m : List (List ℚ)) (rows : ℕ) (k : ℕ) : ℚ :=
  matGet m (k % rows) (k / rows)

/-- `reshape(nx, ny, nz, c, order="F")` of a flat Fortran-ordered
vector: element `(ix, iy, iz, ch)` sits at flat Fortran index
`ix + nx*(iy + ny*(iz + nz*ch))`. -/
def reshapeF (flat : ℕ → ℚ) (nx ny nz : ℕ) (ix iy iz ch : ℕ) : ℚ :=
  flat (ix + nx * (iy + ny * (iz + nz * ch)))

/-- `m.reshape(nx, ny, nz, c, order="F").transpose(3, 0, 1, 2)` applied
to a channels-only matrix `m`: the result is indexed `(ch, ix, iy, iz)`. -/
def reshapeCore (m : List (List ℚ)) (nx ny nz : ℕ) (ch ix iy iz : ℕ) : ℚ :=
  reshapeF (fortranFlat m m.length) nx ny nz ix iy iz ch

/-- The reshape performed by `_reshape_data`:
`data[:, 3:].reshape(num_x_steps, num_y_steps, num_z_steps, num_values,
order="F").transpose(3, 0, 1, 2)`.  The channel-count argument only
fixes the declared output shape; element lookup does not depend on it. -/
def reshapeData (data : List (List ℚ)) (nx ny nz _numValues : ℕ) :
    ℕ → ℕ → ℕ → ℕ → ℚ :=
  reshapeCore (dropCoords data) nx ny nz

/- ### getD helper lemmas -/

theorem getD_drop_add (l : List ℚ) (i j : ℕ) :
    (l.drop i).getD j 0 = l.getD (i + j) 0 := by
  induction i generalizing l with
  | zero => simp
  | succ n ih =>
    cases l with
    | nil => simp
    | cons a t =>
      have : n + 1 + j = (n + j) + 1 := by omega
      simp [this, List.getD_cons_succ, ih]

theorem getD_map_of_lt {α β : Type} (f : α → β) (l : List α)
    (i : ℕ) (d : α) (d2 : β) (h : i < l.length) :
    (l.map f).getD i d2 = f (l.getD i d) := by
  induction l generalizing i with
  | nil => simp at h
  | cons a t ih =>
    cases i with
    | zero => simp
    | succ n =>
      simp only [List.map_cons, List.getD_cons_succ]
      exact ih n (by simpa using h)

theorem getD_eq_getElem {α : Type} (l : List α) (i : ℕ) (d : α)
    (h : i < l.length) : l.getD i d = l[i] := by
  induction l generalizing i with
  | nil => simp at h
  | cons a t ih =>
    cases i with
    | zero => simp
    | succ n =>
      simp only [List.getD_cons_succ, List.getElem_cons_succ]
      exact ih n (by simpa using h)

/-- Row index `ix + iy*nx + iz*(nx*ny)` of an in-range lattice point is
below the lattice size. -/
theorem flat_row_lt (nx ny nz ix iy iz : ℕ)
    (hix : ix < nx) (hiy : iy < ny) (hiz : iz < nz) :
    ix + iy * nx + iz * (nx * ny) < nx * ny * nz := by
  have h1 : ix + 1 ≤ nx := hix
  have h2 : iy + 1 ≤ ny := hiy
  have h3 : iz + 1 ≤ nz := hiz
  have key : ix + iy * nx + iz * (nx * ny) + 1 ≤ nx * ny * nz := by
    calc ix + iy * nx + iz * (nx * ny) + 1
        = (ix + 1) + iy * nx + iz * (nx * ny) := by ring
      _ ≤ nx + iy * nx + iz * (nx * ny) := by
          exact Nat.add_le_add_right (Nat.add_le_add_right h1 _) _
      _ = (iy + 1) * nx + iz * (nx * ny) := by ring
      _ ≤ ny * nx + iz * (nx * ny) := by
          exact Nat.add_le_add_right (Nat.mul_le_mul_right nx h2) _
      _ = (iz + 1) * (nx * ny) := by ring
      _ ≤ nz * (nx * ny) := Nat.mul_le_mul_right _ h3
      _ = nx * ny * nz := by ring
  omega

/-- Core fact about the Fortran reshape + transpose: element
`(ch, ix, iy, iz)` of the reshaped array is the original matrix entry at
row `ix + iy*nx + iz*(nx*ny)`, column `3 + ch`. -/
theorem reshape_point (data : List (List ℚ)) (nx ny nz c ch ix iy iz : ℕ)
    (hrows : data.length = nx * ny * nz)
    (hix : ix < nx) (hiy : iy < ny) (hiz : iz < nz) :
    reshapeData data nx ny nz c ch ix iy iz
      = matGet data (ix + iy * nx + iz * (nx * ny)) (3 + ch) := by
  have hN : (dropCoords data).length = nx * ny * nz := by
    simpa [dropCoords] using hrows
  have hR : ix + iy * nx + iz * (nx * ny) < nx * ny * nz :=
    flat_row_lt nx ny nz ix iy iz hix hiy hiz
  have hk : ix + nx * (iy + ny * (iz + nz * ch))
      = (ix + iy * nx + iz * (nx * ny)) + (nx * ny * nz) * ch := by ring
  have hNpos : 0 < nx * ny * nz :=
    Nat.lt_of_le_of_lt (Nat.zero_le _) hR
  unfold reshapeData reshapeCore reshapeF fortranFlat
  rw [hN, hk]
  rw [Nat.add_mul_mod_self_left, Nat.mod_eq_of_lt hR]
  rw [Nat.add_mul_div_left _ _ hNpos, Nat.div_eq_of_lt hR, Nat.zero_add]
  unfold matGet dropCoords
  rw [getD_map_of_lt (List.drop 3) data _ [] [] (by omega), getD_drop_add]

/-- C1: for a flat sample with `nx*ny*nz` rows and `3+c` columns, the
reshaped 4-D array satisfies
`reshaped[ch, ix, iy, iz] = data[ix + iy*nx + iz*nx*ny, 3+ch]` for all
in-range indices: the coordinate columns are dropped and the channel
axis moved to the front, with first-axis-fastest element ordering. -/
theorem reshape_data_index_correct (data : List (List ℚ))
    (nx ny nz c ch ix iy iz : ℕ)
    (hrows : data.length = nx * ny * nz)
    (_hcols : ∀ r ∈ data, r.length = 3 + c)
    (hix : ix < nx) (hiy : iy < ny) (hiz : iz < nz) (_hch : ch < c) :
    reshapeData data nx ny nz c ch ix iy iz
      = matGet data (ix + iy * nx + iz * (nx * ny)) (3 + ch) :=
  reshape_point data nx ny nz c ch ix iy iz hrows hix hiy hiz

/-- C1 witness: a concrete 2 × 1 × 1 grid with one channel. -/
theorem reshape_data_index_correct_witness :
    reshapeData [[0, 0, 0, 5], [1, 0, 0, 6]] 2 1 1 1 0 1 0 0
      = matGet [[0, 0, 0, 5], [1, 0, 0, 6]] 1 3 := by
  have h := reshape_data_index_correct [[0, 0, 0, 5], [1, 0, 0, 6]]
    2 1 1 1 0 1 0 0 (by decide) (by decide)
    (by decide) (by decide) (by decide) (by decide)
  simpa using h

/- ### `_check_reshaped_data` and the checked reshape -/

/-- The four corner assertions of `_check_reshaped_data`: along the
channel axis, the reshaped slices at `(0,0,0)`, `(1,0,0)`, `(0,1,0)`,
`(0,0,1)` must equal the trailing channel columns of original rows
`0`, `1`, `num_x_steps`, `num_x_steps * num_y_steps`. -/
def checkReshapedData (reshaped : ℕ → ℕ → ℕ → ℕ → ℚ)
    (original : List (List ℚ)) (nx ny c : ℕ) : Bool :=
  ((List.range c).all fun ch =>
      decide (reshaped ch 0 0 0 = matGet original 0 (3 + ch))) &&
  ((List.range c).all fun ch =>
      decide (reshaped ch 1 0 0 = matGet original 1 (3 + ch))) &&
  ((List.range c).all fun ch =>
      decide (reshaped ch 0 1 0 = matGet original nx (3 + ch))) &&
  ((List.range c).all fun ch =>
      decide (reshaped ch 0 0 1 = matGet original (nx * ny) (3 + ch)))

/-- The `AssertionError` of `_check_reshaped_data` (spec:
`ReshapeInvariantError`). -/
inductive ReshapeErr where
  | reshapeInvariant
deriving DecidableEq

/-- `_reshape_data`: reshape, then run the corner self-check, failing
fast when it does not hold. -/
def reshapeDataChecked (data : List (List ℚ)) (nx ny nz c : ℕ) :
    Except ReshapeErr (ℕ → ℕ → ℕ → ℕ → ℚ) :=
  let r := reshapeData data nx ny nz c
  if checkReshapedData r data nx ny c then .ok r
  else .error .reshapeInvariant

/-- C2: when the flat sample has exactly `nx*ny*nz` rows and `3+c`
columns with `nx, ny, nz ≥ 2`, all four corner assertions of
`_check_reshaped_data` pass, so the failure branch of `_reshape_data`
is unreachable and it returns the reshaped array normally. -/
theorem reshape_corner_checks_pass (data : List (List ℚ)) (nx ny nz c : ℕ)
    (h2x : 2 ≤ nx) (h2y : 2 ≤ ny) (h2z : 2 ≤ nz)
    (hrows : data.length = nx * ny * nz)
    (_hcols : ∀ r ∈ data, r.length = 3 + c) :
    checkReshapedData (reshapeData data nx ny nz c) data nx ny c = true ∧
    reshapeDataChecked data nx ny nz c = .ok (reshapeData data nx ny nz c) := by
  have hxpos : 0 < nx := by omega
  have hypos : 0 < ny := by omega
  have hzpos : 0 < nz := by omega
  have hmain : checkReshapedData (reshapeData data nx ny nz c) data nx ny c = true := by
    unfold checkReshapedData
    simp only [Bool.and_eq_true, List.all_eq_true, decide_eq_true_eq, List.mem_range]
    refine ⟨⟨⟨?_, ?_⟩, ?_⟩, ?_⟩
    · intro ch _
      have h := reshape_point data nx ny nz c ch 0 0 0 hrows hxpos hypos hzpos
      simpa using h
    · intro ch _
      have h := reshape_point data nx ny nz c ch 1 0 0 hrows (by omega) hypos hzpos
      simpa using h
    · intro ch _
      have h := reshape_point data nx ny nz c ch 0 1 0 hrows hxpos (by omega) hzpos
      simpa using h
    · intro ch _
      have h := reshape_point data nx ny nz c ch 0 0 1 hrows hxpos hypos (by omega)
      simpa using h
  refine ⟨hmain, ?_⟩
  unfold reshapeDataChecked
  rw [if_pos hmain]

/-- C2 witness: a concrete 2 × 2 × 2 one-channel grid passes the corner
checks and the checked reshape returns normally. -/
theorem reshape_corner_checks_pass_witness :
    checkReshapedData
        (reshapeData [[0,0,0,10],[1,0,0,11],[0,1,0,12],[1,1,0,13],
                      [0,0,1,14],[1,0,1,15],[0,1,1,16],[1,1,1,17]] 2 2 2 1)
        [[0,0,0,10],[1,0,0,11],[0,1,0,12],[1,1,0,13],
         [0,0,1,14],[1,0,1,15],[0,1,1,16],[1,1,1,17]] 2 2 1 = true :=
  (reshape_corner_checks_pass
    [[0,0,0,10],[1,0,0,11],[0,1,0,12],[1,1,0,13],
     [0,0,1,14],[1,0,1,15],[0,1,1,16],[1,1,1,17]] 2 2 2 1
    (by decide) (by decide) (by decide) (by decide) (by decide)).1

/- ### Round-trip flatten (C7) -/

/-- Flatten a dense `(channel, x, y, z)` grid back into an
`(nx*ny*nz) × c` channels-only matrix in the same first-axis-fastest
row order: row `r` corresponds to the lattice point
`(r % nx, r / nx % ny, r / (nx*ny))`.  The source has no flatten
function; this is the inverse traversal described by the spec's
round-trip property, written from its words. -/
def flattenDense (g : ℕ → ℕ → ℕ → ℕ → ℚ) (nx ny nz c : ℕ) :
    List (List ℚ) :=
  (List.range (nx * ny * nz)).map fun r =>
    (List.range c).map fun ch => g ch (r % nx) (r / nx % ny) (r / (nx * ny))

/-- Decomposing a row index `r < nx*ny*nz` into lattice coordinates and
recombining gives back `r`. -/
theorem row_decompose (nx ny : ℕ) (r : ℕ) (_hx : 0 < nx) :
    r % nx + (r / nx % ny) * nx + (r / (nx * ny)) * (nx * ny) = r := by
  have h1 : r % nx + nx * (r / nx) = r := Nat.mod_add_div r nx
  have h2 : r / nx % ny + ny * (r / nx / ny) = r / nx := Nat.mod_add_div (r / nx) ny
  have h3 : r / nx / ny = r / (nx * ny) := Nat.div_div_eq_div_mul r nx ny
  calc r % nx + (r / nx % ny) * nx + (r / (nx * ny)) * (nx * ny)
      = r % nx + nx * (r / nx % ny + ny * (r / nx / ny)) := by rw [← h3]; ring
    _ = r % nx + nx * (r / nx) := by rw [h2]
    _ = r := h1

/-- C7: round-trip identity of the reshape.  Flattening the reshaped
array back in first-axis-fastest order recovers exactly the channel
columns of the flat sample (`flatten(reshape(x)) = x[:, 3:]`), and
hence reshaping the flattened result reproduces the reshaped array
(`reshape(flatten(reshape(x))) = reshape(x)`). -/
theorem reshape_round_trip (data : List (List ℚ)) (nx ny nz c : ℕ)
    (hx : 0 < nx) (hy : 0 < ny) (_hz : 0 < nz)
    (hrows : data.length = nx * ny * nz)
    (hcols : ∀ r ∈ data, r.length = 3 + c) :
    flattenDense (reshapeData data nx ny nz c) nx ny nz c = dropCoords data ∧
    reshapeCore (flattenDense (reshapeData data nx ny nz c) nx ny nz c) nx ny nz
      = reshapeData data nx ny nz c := by
  have hmain :
      flattenDense (reshapeData data nx ny nz c) nx ny nz c = dropCoords data := by
    apply List.ext_getElem
    · simp [flattenDense, dropCoords, hrows]
    · intro r h1 h2
      have hrlt : r < nx * ny * nz := by
        simpa [flattenDense] using h1
      have hrdata : r < data.length := by omega
      rw [show (flattenDense (reshapeData data nx ny nz c) nx ny nz c)[r]
            = (List.range c).map
                (fun ch => reshapeData data nx ny nz c ch
                  (r % nx) (r / nx % ny) (r / (nx * ny)))
          from by simp [flattenDense]]
      rw [show (dropCoords data)[r] = (data[r]).drop 3 from by simp [dropCoords]]
      have hrowlen : (data[r]).length = 3 + c :=
        hcols _ (List.getElem_mem hrdata)
      apply List.ext_getElem
      · simp [hrowlen]
      · intro j hj1 hj2
        have hjc : j < c := by simpa using hj1
        have hizlt : r / (nx * ny) < nz := by
          rw [Nat.div_lt_iff_lt_mul (Nat.mul_pos hx hy)]
          calc r < nx * ny * nz := hrlt
            _ = nz * (nx * ny) := by ring
        have hpt := reshape_point data nx ny nz c j
          (r % nx) (r / nx % ny) (r / (nx * ny)) hrows
          (Nat.mod_lt _ hx) (Nat.mod_lt _ hy) hizlt
        rw [row_decompose nx ny r hx] at hpt
        simp only [List.getElem_map, List.getElem_range]
        rw [hpt]
        rw [show ((data[r]).drop 3)[j] = (data[r])[3 + j] from by
              rw [List.getElem_drop]]
        unfold matGet
        rw [getD_eq_getElem data r [] hrdata,
            getD_eq_getElem (data[r]) (3 + j) 0 (by omega)]
  refine ⟨hmain, ?_⟩
  rw [hmain]
  rfl

/-- C7 witness: concrete 2 × 1 × 1 one-channel grid. -/
theorem reshape_round_trip_witness :
    flattenDense (reshapeData [[0, 0, 0, 5], [1, 0, 0, 6]] 2 1 1 1) 2 1 1 1
      = dropCoords [[0, 0, 0, 5], [1, 0, 0, 6]] :=
  (reshape_round_trip [[0, 0, 0, 5], [1, 0, 0, 6]] 2 1 1 1
    (by decide) (by decide) (by decide) (by decide) (by decide)).1

/- ### `_check_input_values` -/

/-- Observed maximum consecutive difference of coordinate column `j`:
`np.diff(data[:, j]).max()` (with `0` standing in for the value of the
crashing empty reduction, which the validator model reports
separately). -/
def colDiffMax (data : List (List ℚ)) (j : ℕ) : ℚ :=
  ((npDiff (col data j)).max?).getD 0

/-- Observed maximum of coordinate column `j`: `data[:, j].max()`. -/
def colMax (data : List (List ℚ)) (j : ℕ) : ℚ :=
  ((col data j).max?).getD 0

/-- Expected row count: the product of the per-axis step counts
`int(size[i] / step[i]) + 1` computed by `_check_input_values`. -/
def expectedRows (size step : ℚ × ℚ × ℚ) : ℤ :=
  (pyInt (size.1 / step.1) + 1) * (pyInt (size.2.1 / step.2.1) + 1) *
    (pyInt (size.2.2 / step.2.2) + 1)

/-- Component of a `(x, y, z)` triple selected by axis index. -/
def axisAt (t : ℚ × ℚ × ℚ) : ℕ → ℚ
  | 0 => t.1
  | 1 => t.2.1
  | _ => t.2.2

/-- Failures of `_check_input_values`.  The first two fields of each
assertion constructor record, in order, the two values interpolated
into the message slots labelled `Expected` and `got` by the source's
f-strings.  `maxOfEmpty` is the numpy `ValueError` raised by `.max()`
on an empty array (no check name, no expected/got slots). -/
inductive ValErr where
  | stepsMismatch (expectedShown : ℤ) (gotShown : ℕ)
  | columnsMismatch (expectedShown gotShown : ℕ)
  | stepMismatch (axis : ℕ) (expectedShown gotShown : ℚ)
  | sizeMismatch (axis : ℕ) (expectedShown gotShown : ℚ)
  | maxOfEmpty
deriving DecidableEq

/-- Whether a validator failure names one of the four documented
checks (row count, column count, per-axis step, per-axis size). -/
def namesCheck : ValErr → Bool
  | .maxOfEmpty => false
  | _ => true

/-- `_check_input_values`: the sequence of assertions of the source, in
source order, failing on the first violated one.  Each `.max()` of an
empty array is the point where numpy raises `ValueError` instead. -/
def checkInputValues (size step : ℚ × ℚ × ℚ) (numValues : ℕ)
    (data : List (List ℚ)) : Except ValErr Unit :=
  if expectedRows size step ≠ (data.length : ℤ) then
    .error (.stepsMismatch (expectedRows size step) data.length)
  else if numCols data ≠ numValues + 3 then
    .error (.columnsMismatch (numCols data) (numValues + 3))
  else
    match (npDiff (col data 0)).max? with
    | none => .error .maxOfEmpty
    | some mx =>
      if npAllclose mx step.1 = false then .error (.stepMismatch 0 mx step.1)
      else
        match (npDiff (col data 1)).max? with
        | none => .error .maxOfEmpty
        | some my =>
          if npAllclose my step.2.1 = false then
            .error (.stepMismatch 1 my step.2.1)
          else
            match (npDiff (col data 2)).max? with
            | none => .error .maxOfEmpty
            | some mz =>
              if npAllclose mz step.2.2 = false then
                .error (.stepMismatch 2 mz step.2.2)
              else
                match (col data 0).max? with
                | none => .error .maxOfEmpty
                | some sx =>
                  if npAllclose sx size.1 = false then
                    .error (.sizeMismatch 0 sx size.1)
                  else
                    match (col data 1).max? with
                    | none => .error .maxOfEmpty
                    | some sy =>
                      if npAllclose sy size.2.1 = false then
                        .error (.sizeMismatch 1 sy size.2.1)
                      else
                        match (col data 2).max? with
                        | none => .error .maxOfEmpty
                        | some sz =>
                          if npAllclose sz size.2.2 = false then
                            .error (.sizeMismatch 2 sz size.2.2)
                          else .ok ()

theorem max?_eq_getD_of_ne_nil (l : List ℚ) (h : l ≠ []) :
    l.max? = some (l.max?.getD 0) := by
  cases l with
  | nil => exact absurd rfl h
  | cons a t => rfl

theorem npDiff_col_ne_nil (data : List (List ℚ)) (j : ℕ)
    (h2 : 2 ≤ data.length) : npDiff (col data j) ≠ [] := by
  intro hnil
  have hlen := congrArg List.length hnil
  simp only [npDiff, col, List.length_zipWith, List.length_tail,
    List.length_map, List.length_nil] at hlen
  omega

theorem col_ne_nil (data : List (List ℚ)) (j : ℕ)
    (h1 : 1 ≤ data.length) : col data j ≠ [] := by
  intro hnil
  have hlen := congrArg List.length hnil
  simp only [col, List.length_map, List.length_nil] at hlen
  omega

/-- The outcome of `_check_input_values` on a sample with at least two
rows, as a plain cascade over the observed quantities (proof-support
definition; `check_input_values_first_violation` proves it equal to
`checkInputValues` there). -/
def checkOutcome (size step : ℚ × ℚ × ℚ) (nv : ℕ)
    (data : List (List ℚ)) : Except ValErr Unit :=
  if expectedRows size step ≠ (data.length : ℤ) then
    .error (.stepsMismatch (expectedRows size step) data.length)
  else if numCols data ≠ nv + 3 then
    .error (.columnsMismatch (numCols data) (nv + 3))
  else if npAllclose (colDiffMax data 0) step.1 = false then
    .error (.stepMismatch 0 (colDiffMax data 0) step.1)
  else if npAllclose (colDiffMax data 1) step.2.1 = false then
    .error (.stepMismatch 1 (colDiffMax data 1) step.2.1)
  else if npAllclose (colDiffMax data 2) step.2.2 = false then
    .error (.stepMismatch 2 (colDiffMax data 2) step.2.2)
  else if npAllclose (colMax data 0) size.1 = false then
    .error (.sizeMismatch 0 (colMax data 0) size.1)
  else if npAllclose (colMax data 1) size.2.1 = false then
    .error (.sizeMismatch 1 (colMax data 1) size.2.1)
  else if npAllclose (colMax data 2) size.2.2 = false then
    .error (.sizeMismatch 2 (colMax data 2) size.2.2)
  else .ok ()

theorem checkInputValues_eq_checkOutcome
    (size step : ℚ × ℚ × ℚ) (nv : ℕ) (data : List (List ℚ))
    (h2 : 2 ≤ data.length) :
    checkInputValues size step nv data = checkOutcome size step nv data := by
  have e0 : (npDiff (col data 0)).max? = some (colDiffMax data 0) :=
    max?_eq_getD_of_ne_nil _ (npDiff_col_ne_nil data 0 h2)
  have e1 : (npDiff (col data 1)).max? = some (colDiffMax data 1) :=
    max?_eq_getD_of_ne_nil _ (npDiff_col_ne_nil data 1 h2)
  have e2 : (npDiff (col data 2)).max? = some (colDiffMax data 2) :=
    max?_eq_getD_of_ne_nil _ (npDiff_col_ne_nil data 2 h2)
  have e3 : (col data 0).max? = some (colMax data 0) :=
    max?_eq_getD_of_ne_nil _ (col_ne_nil data 0 (by omega))
  have e4 : (col data 1).max? = some (colMax data 1) :=
    max?_eq_getD_of_ne_nil _ (col_ne_nil data 1 (by omega))
  have e5 : (col data 2).max? = some (colMax data 2) :=
    max?_eq_getD_of_ne_nil _ (col_ne_nil data 2 (by omega))
  simp only [checkInputValues, checkOutcome, e0, e1, e2, e3, e4, e5]

/-- C3 amended: for samples with at least two rows, `_check_input_values`
raises a `ValidationError` naming the violated check exactly when one of
the four documented conditions fails; the checks run in source order,
the error names the first violated one, and on success nothing is
returned. -/
theorem check_input_values_first_violation
    (size step : ℚ × ℚ × ℚ) (nv : ℕ) (data : List (List ℚ))
    (h2 : 2 ≤ data.length) :
    (checkInputValues size step nv data = .ok () ↔
      (expectedRows size step = (data.length : ℤ) ∧
        numCols data = nv + 3 ∧
        (npAllclose (colDiffMax data 0) step.1 = true ∧
          npAllclose (colDiffMax data 1) step.2.1 = true ∧
          npAllclose (colDiffMax data 2) step.2.2 = true) ∧
        (npAllclose (colMax data 0) size.1 = true ∧
          npAllclose (colMax data 1) size.2.1 = true ∧
          npAllclose (colMax data 2) size.2.2 = true))) ∧
    (∀ e, checkInputValues size step nv data = .error e →
      namesCheck e = true) ∧
    (expectedRows size step ≠ (data.length : ℤ) →
      checkInputValues size step nv data
        = .error (.stepsMismatch (expectedRows size step) data.length)) ∧
    (expectedRows size step = (data.length : ℤ) → numCols data ≠ nv + 3 →
      checkInputValues size step nv data
        = .error (.columnsMismatch (numCols data) (nv + 3))) ∧
    (expectedRows size step = (data.length : ℤ) → numCols data = nv + 3 →
      npAllclose (colDiffMax data 0) step.1 = false →
      checkInputValues size step nv data
        = .error (.stepMismatch 0 (colDiffMax data 0) step.1)) ∧
    (expectedRows size step = (data.length : ℤ) → numCols data = nv + 3 →
      npAllclose (colDiffMax data 0) step.1 = true →
      npAllclose (colDiffMax data 1) step.2.1 = false →
      checkInputValues size step nv data
        = .error (.stepMismatch 1 (colDiffMax data 1) step.2.1)) ∧
    (expectedRows size step = (data.length : ℤ) → numCols data = nv + 3 →
      npAllclose (colDiffMax data 0) step.1 = true →
      npAllclose (colDiffMax data 1) step.2.1 = true →
      npAllclose (colDiffMax data 2) step.2.2 = false →
      checkInputValues size step nv data
        = .error (.stepMismatch 2 (colDiffMax data 2) step.2.2)) ∧
    (expectedRows size step = (data.length : ℤ) → numCols data = nv + 3 →
      npAllclose (colDiffMax data 0) step.1 = true →
      npAllclose (colDiffMax data 1) step.2.1 = true →
      npAllclose (colDiffMax data 2) step.2.2 = true →
      npAllclose (colMax data 0) size.1 = false →
      checkInputValues size step nv data
        = .error (.sizeMismatch 0 (colMax data 0) size.1)) ∧
    (expectedRows size step = (data.length : ℤ) → numCols data = nv + 3 →
      npAllclose (colDiffMax data 0) step.1 = true →
      npAllclose (colDiffMax data 1) step.2.1 = true →
      npAllclose (colDiffMax data 2) step.2.2 = true →
      npAllclose (colMax data 0) size.1 = true →
      npAllclose (colMax data 1) size.2.1 = false →
      checkInputValues size step nv data
        = .error (.sizeMismatch 1 (colMax data 1) size.2.1)) ∧
    (expectedRows size step = (data.length : ℤ) → numCols data = nv + 3 →
      npAllclose (colDiffMax data 0) step.1 = true →
      npAllclose (colDiffMax data 1) step.2.1 = true →
      npAllclose (colDiffMax data 2) step.2.2 = true →
      npAllclose (colMax data 0) size.1 = true →
      npAllclose (colMax data 1) size.2.1 = true →
      npAllclose (colMax data 2) size.2.2 = false →
      checkInputValues size step nv data
        = .error (.sizeMismatch 2 (colMax data 2) size.2.2)) := by
  rw [checkInputValues_eq_checkOutcome size step nv data h2]
  unfold checkOutcome
  split_ifs <;> simp_all [namesCheck]

/- ### Concrete IEEE-754 double values used by the scenarios -/

/-- Exact rational value of the IEEE-754 double `0.1`. -/
def f01 : ℚ := 3602879701896397 / 36028797018963968

/-- Exact rational value of the IEEE-754 double `0.2` (exactly twice
`f01`, so `0.2 / 0.1`, `0.2 - 0.1` and all comparisons below are exact
in double arithmetic and coincide with rational arithmetic). -/
def f02 : ℚ := 3602879701896397 / 18014398509481984

/-- Exact rational value of the IEEE-754 double `0.05` (exactly half of
`f01`, so `0.05 / 0.1 = 0.5` exactly). -/
def f005 : ℚ := 3602879701896397 / 72057594037927936

/-- A single-row flat sample (1 lattice point, 1 channel). -/
def singleRowData : List (List ℚ) := [[0, 0, 0, 7]]

unseal Rat.mul Rat.inv Rat.add Rat.sub in
/-- C3 counterexample: with `size = (0.05, 0.05, 0.05)` and
`step = (0.1, 0.1, 0.1)` the expected row count is 1, so a valid
single-row sample passes the row-count and column-count checks and then
`np.diff(data[:, 0]).max()` raises numpy's `ValueError` on an empty
reduction — an error that names no check — contradicting the claim that
every failure is a `ValidationError` naming the violated check. -/
theorem check_input_values_single_row_counterexample :
    checkInputValues (f005, f005, f005) (f01, f01, f01) 1 singleRowData
      = .error .maxOfEmpty ∧
    namesCheck .maxOfEmpty = false ∧
    expectedRows (f005, f005, f005) (f01, f01, f01) = 1 ∧
    (singleRowData.length = 1 ∧ numCols singleRowData = 1 + 3) := by
  exact ⟨rfl, rfl, by decide, by decide, by decide⟩

/-- A valid 2 × 2 × 2 one-channel grid over step `0.1` in each axis. -/
def validCube : List (List ℚ) :=
  [[0, 0, 0, 1], [f01, 0, 0, 2], [0, f01, 0, 3], [f01, f01, 0, 4],
   [0, 0, f01, 5], [f01, 0, f01, 6], [0, f01, f01, 7], [f01, f01, f01, 8]]

unseal Rat.mul Rat.inv Rat.add Rat.sub in
/-- C3 witness: the characterization applied to a concrete valid
sample yields success. -/
theorem check_input_values_first_violation_witness :
    checkInputValues (f01, f01, f01) (f01, f01, f01) 1 validCube = .ok () :=
  (check_input_values_first_violation (f01, f01, f01) (f01, f01, f01) 1
    validCube (by decide)).1.mpr (by decide)

/-- The concrete flat table of the spec's scenario: `size = (0.2, 0.1,
0.1)`, `step = (0.1, 0.1, 0.1)`, one channel, 12 rows in x-fastest
order with value column `10 .. 21`. -/
def scenarioData : List (List ℚ) :=
  [[0, 0, 0, 10], [f01, 0, 0, 11], [f02, 0, 0, 12],
   [0, f01, 0, 13], [f01, f01, 0, 14], [f02, f01, 0, 15],
   [0, 0, f01, 16], [f01, 0, f01, 17], [f02, 0, f01, 18],
   [0, f01, f01, 19], [f01, f01, f01, 20], [f02, f01, f01, 21]]

set_option maxRecDepth 4000 in
unseal Rat.mul Rat.inv Rat.add Rat.sub in
/-- C4: with `size = (0.2, 0.1, 0.1)` and `step = (0.1, 0.1, 0.1)` the
per-axis step counts `int(size[i]/step[i]) + 1` are `(3, 2, 2)` (the
double divisions `0.2/0.1 = 2` and `0.1/0.1 = 1` are exact), the
expected row count is 12, the 12-row one-channel table passes
validation, the checked reshape returns normally, and the reshaped
array's `[0, :, 0, 0]` slice equals the value column of rows 0, 1, 2. -/
theorem concrete_scenario_steps_3_2_2 :
    pyInt (f02 / f01) + 1 = 3 ∧
    pyInt (f01 / f01) + 1 = 2 ∧
    expectedRows (f02, f01, f01) (f01, f01, f01) = 12 ∧
    checkInputValues (f02, f01, f01) (f01, f01, f01) 1 scenarioData
      = .ok () ∧
    reshapeDataChecked scenarioData 3 2 2 1
      = .ok (reshapeData scenarioData 3 2 2 1) ∧
    (reshapeData scenarioData 3 2 2 1 0 0 0 0 = 10 ∧
      reshapeData scenarioData 3 2 2 1 0 1 0 0 = 11 ∧
      reshapeData scenarioData 3 2 2 1 0 2 0 0 = 12) := by
  exact ⟨by decide, by decide, by decide, rfl, rfl,
    by decide, by decide, by decide⟩

set_option maxHeartbeats 1600000 in
/-- C8 amended: in every failure message of `_check_input_values`, the
row-count assertion fills the `Expected` slot with the derived
expectation and the `got` slot with the observed row count, as the
claim states; but the column-count, step and size assertions swap the
labels: their `Expected` slot carries the value observed in the data
and their `got` slot carries the declared or derived expectation. -/
theorem validation_error_labels (size step : ℚ × ℚ × ℚ) (nv : ℕ)
    (data : List (List ℚ)) :
    (∀ a b, checkInputValues size step nv data
        = .error (.stepsMismatch a b) →
      a = expectedRows size step ∧ b = data.length) ∧
    (∀ a b, checkInputValues size step nv data
        = .error (.columnsMismatch a b) →
      a = numCols data ∧ b = nv + 3) ∧
    (∀ j a b, checkInputValues size step nv data
        = .error (.stepMismatch j a b) →
      a = colDiffMax data j ∧
        ((j = 0 ∧ b = step.1) ∨ (j = 1 ∧ b = step.2.1) ∨
          (j = 2 ∧ b = step.2.2))) ∧
    (∀ j a b, checkInputValues size step nv data
        = .error (.sizeMismatch j a b) →
      a = colMax data j ∧
        ((j = 0 ∧ b = size.1) ∨ (j = 1 ∧ b = size.2.1) ∨
          (j = 2 ∧ b = size.2.2))) := by
  refine ⟨?_, ?_, ?_, ?_⟩ <;>
    first
      | (intro a b h
         unfold checkInputValues at h
         repeat' split at h
         all_goals simp_all [colDiffMax, colMax])
      | (intro j a b h
         unfold checkInputValues at h
         repeat' split at h
         all_goals simp_all [colDiffMax, colMax])

/-- A 2 × 2 × 2 sample carrying one extra value column (5 columns
where `channel_count = 1` expects 4). -/
def extraColumnData : List (List ℚ) :=
  [[0, 0, 0, 1, 1], [f01, 0, 0, 2, 2], [0, f01, 0, 3, 3], [f01, f01, 0, 4, 4],
   [0, 0, f01, 5, 5], [f01, 0, f01, 6, 6], [0, f01, f01, 7, 7],
   [f01, f01, f01, 8, 8]]

unseal Rat.mul Rat.inv Rat.add Rat.sub in
/-- C8 counterexample: on a sample failing the column-count check the
raised message is `Expected 5, got 4` — the `Expected` slot carries the
observed column count (5) and the `got` slot the declared expectation
`channel_count + 3 = 4`, the opposite of what the claim states. -/
theorem validation_error_labels_counterexample :
    checkInputValues (f01, f01, f01) (f01, f01, f01) 1 extraColumnData
      = .error (.columnsMismatch 5 4) ∧
    numCols extraColumnData = 5 ∧ 1 + 3 = 4 ∧ (5 : ℕ) ≠ 4 := by
  exact ⟨rfl, by decide, by decide, by decide⟩

unseal Rat.mul Rat.inv Rat.add Rat.sub in
/-- C8 witness: the label description applied at the concrete failing
input above. -/
theorem validation_error_labels_witness :
    (5 : ℕ) = numCols extraColumnData ∧ (4 : ℕ) = 1 + 3 :=
  (validation_error_labels (f01, f01, f01) (f01, f01, f01) 1
    extraColumnData).2.1 5 4 (by exact rfl)

/- ### `_extract_comsol_metadata`: Python string helpers -/

/-- Characters stripped by Python's `str.strip()` and matched by the
regex class `\s` (ASCII range). -/
def isPySpace (c : Char) : Bool :=
  c == ' ' || c == '\t' || c == '\n' || c == '\r' || c == '\x0B' || c == '\x0C'

/-- Remove leading whitespace. -/
def stripLeft (s : List Char) : List Char := s.dropWhile isPySpace

/-- Remove trailing whitespace. -/
def stripRight (s : List Char) : List Char :=
  (s.reverse.dropWhile isPySpace).reverse

/-- Python `str.strip()`. -/
def pyStrip (s : List Char) : List Char := stripLeft (stripRight s)

/-- Python `str.split(":")`: never empty, no separator retained. -/
def splitOnColon : List Char → List (List Char)
  | [] => [[]]
  | c :: cs =>
    if c = ':' then [] :: splitOnColon cs
    else
      match splitOnColon cs with
      | [] => [[c]]
      | g :: gs => (c :: g) :: gs

/-- Python `":".join(groups)`. -/
def joinColon : List (List Char) → List Char
  | [] => []
  | [g] => g
  | g :: gs => g ++ ':' :: joinColon gs

/- ### `time.strptime(value, "%b %d %Y, %H:%M")` -/

/-- Numeric value of an ASCII digit character. -/
def digitVal (c : Char) : ℕ := c.toNat - 48

/-- Value of a digit string, most significant first. -/
def digitsToNat (ds : List Char) : ℕ :=
  ds.foldl (fun a c => a * 10 + digitVal c) 0

/-- Lower-cased abbreviated month names accepted by `%b` in the C
locale (matched case-insensitively). -/
def monthAbbrevs : List (List Char) :=
  ["jan", "feb", "mar", "apr", "may", "jun", "jul", "aug", "sep", "oct",
   "nov", "dec"].map String.data

/-- ASCII lower-casing, as applied by case-insensitive matching. -/
def lowerChar (c : Char) : Char :=
  if 65 ≤ c.toNat ∧ c.toNat ≤ 90 then Char.ofNat (c.toNat + 32) else c

/-- 1-based month number of an abbreviated month name. -/
def monthIndex (s : List Char) : Option ℕ :=
  match monthAbbrevs.findIdx? (fun m => m == s) with
  | some i => some (i + 1)
  | none => none

/-- Gregorian leap-year rule used by `datetime.date`. -/
def isLeapYear (y : ℕ) : Bool :=
  y % 4 == 0 && (y % 100 != 0 || y % 400 == 0)

/-- Days in a month, used by `datetime.date` validation inside
`strptime`. -/
def daysInMonth (mo y : ℕ) : ℕ :=
  if mo = 2 then (if isLeapYear y then 29 else 28)
  else [31, 28, 31, 30, 31, 30, 31, 31, 30, 31, 30, 31].getD (mo - 1) 0

/-- The fields extracted by `strptime` from the fixed layout
`"%b %d %Y, %H:%M"` (seconds default to 0). -/
structure Tm where
  month : ℕ
  day : ℕ
  year : ℕ
  hour : ℕ
  minute : ℕ
deriving DecidableEq

/-- `time.strptime(value, "%b %d %Y, %H:%M")`: whitespace in the format
matches one or more whitespace characters, `%b` a case-insensitive
abbreviated month name, `%d` one or two digits valued 1–31, `%Y`
exactly four digits, `%H` one or two digits valued 0–23, `%M` one or
two digits valued 0–59; the whole string must be consumed, and the
resulting date must be a valid calendar date (`datetime.date` is
constructed internally, so the year must be at least 1 and the day at
most the month's length).  Returns `none` exactly when CPython raises
`ValueError`. -/
def parseComsolDate (s : List Char) : Option Tm :=
  let p1 := s.span (fun c => c.isAlpha)
  match monthIndex (p1.1.map lowerChar) with
  | none => none
  | some mo =>
    let w1 := p1.2.span isPySpace
    if w1.1 = [] then none
    else
      let d1 := w1.2.span (fun c => c.isDigit)
      if d1.1 = [] ∨ 2 < d1.1.length then none
      else
        let day := digitsToNat d1.1
        if day = 0 ∨ 31 < day then none
        else
          let w2 := d1.2.span isPySpace
          if w2.1 = [] then none
          else
            let d2 := w2.2.span (fun c => c.isDigit)
            if d2.1.length ≠ 4 then none
            else
              let year := digitsToNat d2.1
              match d2.2 with
              | ',' :: r6 =>
                let w3 := r6.span isPySpace
                if w3.1 = [] then none
                else
                  let d3 := w3.2.span (fun c => c.isDigit)
                  if d3.1 = [] ∨ 2 < d3.1.length then none
                  else
                    let hour := digitsToNat d3.1
                    if 23 < hour then none
                    else
                      match d3.2 with
                      | ':' :: r9 =>
                        let d4 := r9.span (fun c => c.isDigit)
                        if d4.1 = [] ∨ 2 < d4.1.length then none
                        else
                          let minute := digitsToNat d4.1
                          if 59 < minute then none
                          else if d4.2 ≠ [] then none
                          else if year = 0 then none
                          else if daysInMonth mo year < day then none
                          else some ⟨mo, day, year, hour, minute⟩
                      | _ => none
              | _ => none

/-- Decimal digits of a natural number. -/
def natDigits (n : ℕ) : List Char := Nat.toDigits 10 n

/-- Zero-padding to two digits, as `strftime` does for `%m %d %H %M`. -/
def pad2 (n : ℕ) : List Char :=
  if n < 10 then '0' :: natDigits n else natDigits n

/-- Zero-padding to four digits for `%Y`. -/
def pad4 (n : ℕ) : List Char :=
  if n < 10 then '0' :: '0' :: '0' :: natDigits n
  else if n < 100 then '0' :: '0' :: natDigits n
  else if n < 1000 then '0' :: natDigits n
  else natDigits n

/-- `time.strftime("%Y-%m-%dT%H:%M:%SZ", parsed_time)` with
`tm_sec = 0`. -/
def formatIsoZ (t : Tm) : List Char :=
  pad4 t.year ++ '-' :: (pad2 t.month ++ '-' :: (pad2 t.day ++
    'T' :: (pad2 t.hour ++ ':' :: (pad2 t.minute ++
      (':' :: '0' :: '0' :: 'Z' :: [])))))

/- ### Python `int(str)` -/

/-- Digit run with single underscores allowed between digits, the tail
of `int()` literal parsing (first digit already consumed). -/
def pyIntRest : List Char → ℕ → Option ℕ
  | [], acc => some acc
  | '_' :: c :: rest, acc =>
      if c.isDigit then pyIntRest rest (acc * 10 + digitVal c) else none
  | ['_'], _ => none
  | c :: rest, acc =>
      if c.isDigit then pyIntRest rest (acc * 10 + digitVal c) else none

/-- Unsigned decimal literal: nonempty, starts with a digit. -/
def pyIntDigits (s : List Char) : Option ℕ :=
  match s with
  | c :: rest => if c.isDigit then pyIntRest rest (digitVal c) else none
  | [] => none

/-- Python `int(str)`: surrounding whitespace stripped, optional sign,
decimal digits with single interior underscores.  `none` exactly when
CPython raises `ValueError`. -/
def pyIntParse (s : List Char) : Option ℤ :=
  match pyStrip s with
  | '+' :: rest => (pyIntDigits rest).map (fun n => (n : ℤ))
  | '-' :: rest => (pyIntDigits rest).map (fun n => -(n : ℤ))
  | rest => (pyIntDigits rest).map (fun n => (n : ℤ))

/- ### The metadata mapping and header loop -/

/-- The metadata dictionary built by `_extract_comsol_metadata`, one
optional field per recognized key (`COMSOL_version`, `date`, `nodes`,
`expressions`, `dimensions`, `length_unit`). -/
structure ComsolMeta where
  comsolVersion : Option (List Char) := none
  date : Option (List Char) := none
  nodes : Option ℤ := none
  expressions : Option ℤ := none
  dimensions : Option ℤ := none
  lengthUnit : Option (List Char) := none
deriving DecidableEq

/-- The uncaught exceptions `_extract_comsol_metadata` can raise:
`ValueError` from `time.strptime` on a malformed `Date` value, and
`ValueError` from `int()` on a malformed `Nodes` / `Expressions` /
`Dimensions` value. -/
inductive ExtractErr where
  | dateParse (value : List Char)
  | intParse (value : List Char)
deriving DecidableEq

/-- The `if key == ... / elif ...` chain of the header loop body:
exact, case-sensitive key matching; every other key is dropped. -/
def processEntry (key value : List Char) (m : ComsolMeta) :
    Except ExtractErr ComsolMeta :=
  if key = "Version".data then .ok { m with comsolVersion := some value }
  else if key = "Date".data then
    match parseComsolDate value with
    | some t => .ok { m with date := some (formatIsoZ t) }
    | none => .error (.dateParse value)
  else if key = "Nodes".data then
    match pyIntParse value with
    | some n => .ok { m with nodes := some n }
    | none => .error (.intParse value)
  else if key = "Expressions".data then
    match pyIntParse value with
    | some n => .ok { m with expressions := some n }
    | none => .error (.intParse value)
  else if key = "Dimensions".data then
    match pyIntParse value with
    | some n => .ok { m with dimensions := some n }
    | none => .error (.intParse value)
  else if key = "Length unit".data then .ok { m with lengthUnit := some value }
  else .ok m

/-- The header loop of `_extract_comsol_metadata`: strip each line,
stop at the first line not starting with `%` (an exhausted file reads
as the empty line, which also stops), otherwise split `line[1:]` on
`:`, take the first piece (stripped) as key, rejoin and strip the rest
as value, and dispatch on the key. -/
def extractLines : List (List Char) → ComsolMeta → Except ExtractErr ComsolMeta
  | [], m => .ok m
  | line :: rest, m =>
    let l := pyStrip line
    if l.head? = some '%' then
      let parts := splitOnColon (l.drop 1)
      let key := pyStrip (parts.headD [])
      let value := pyStrip (joinColon parts.tail)
      match processEntry key value m with
      | .error e => .error e
      | .ok m2 => extractLines rest m2
    else .ok m

/-- `_extract_comsol_metadata`, over the file's lines. -/
def extractComsolMetadata (lines : List (List Char)) :
    Except ExtractErr ComsolMeta :=
  extractLines lines {}

/-- C5: the header scan processes lines only while they start with the
`%` marker and recognizes exactly the six documented keys.  Stated as:
(1) on the spec's six-line example header the extractor returns exactly
the documented mapping, whatever lines follow the first numeric row
(so nothing past it is read); (2) a comment line with any other key
leaves the mapping unchanged; (3) a file whose first line is not a
comment yields the empty mapping; (4) an empty file yields the empty
mapping. -/
theorem extract_comsol_metadata_spec :
    (∀ rest, extractComsolMetadata
        (("% Version: 5.6").data :: ("% Date: Jan 5 2023, 10:30").data ::
         ("% Nodes: 1000").data :: ("% Expressions: 3").data ::
         ("% Dimensions: 3").data :: ("% Length unit: mm").data ::
         ("1 2 3").data :: rest)
      = .ok { comsolVersion := some ("5.6").data,
              date := some ("2023-01-05T10:30:00Z").data,
              nodes := some 1000, expressions := some 3,
              dimensions := some 3, lengthUnit := some ("mm").data }) ∧
    (∀ key value m,
      key ∉ [("Version").data, ("Date").data, ("Nodes").data,
        ("Expressions").data, ("Dimensions").data, ("Length unit").data] →
      processEntry key value m = .ok m) ∧
    (∀ line rest, ¬ (pyStrip line).head? = some '%' →
      extractComsolMetadata (line :: rest) = .ok {}) ∧
    extractComsolMetadata [] = .ok {} := by
  refine ⟨fun rest => rfl, ?_, ?_, rfl⟩
  · intro key value m h
    simp only [List.mem_cons, List.not_mem_nil, or_false, not_or] at h
    obtain ⟨h1, h2, h3, h4, h5, h6⟩ := h
    simp only [processEntry, if_neg h1, if_neg h2, if_neg h3, if_neg h4,
      if_neg h5, if_neg h6]
  · intro line rest h
    simp only [extractComsolMetadata, extractLines, if_neg h]

/-- C5 witness: an unrecognized key is dropped, and a file starting
with a numeric row yields the empty mapping. -/
theorem extract_comsol_metadata_spec_witness :
    processEntry ("Foo").data ("bar").data {} = .ok {} ∧
    extractComsolMetadata [("1 2 3").data] = .ok {} :=
  ⟨extract_comsol_metadata_spec.2.1 ("Foo").data ("bar").data {} (by decide),
   extract_comsol_metadata_spec.2.2.1 ("1 2 3").data [] (by decide)⟩

/- ### String lemmas for the header-line theorems -/

theorem dropWhile_append_eq {α : Type} (p : α → Bool) (l1 l2 : List α) :
    (l1 ++ l2).dropWhile p =
      if (l1.dropWhile p).isEmpty then l2.dropWhile p
      else l1.dropWhile p ++ l2 := by
  induction l1 with
  | nil => simp
  | cons a t ih =>
    by_cases h : p a
    · simp [List.dropWhile_cons, h, ih]
    · simp [List.dropWhile_cons, h]

theorem dropWhile_dropWhile {α : Type} (p : α → Bool) (l : List α) :
    (l.dropWhile p).dropWhile p = l.dropWhile p := by
  induction l with
  | nil => simp
  | cons a t ih =>
    by_cases h : p a
    · simp [List.dropWhile_cons, h, ih]
    · simp [List.dropWhile_cons, h]

theorem stripRight_append (a v : List Char)
    (ha : a.reverse.dropWhile isPySpace = a.reverse) :
    stripRight (a ++ v) = a ++ stripRight v := by
  unfold stripRight
  rw [List.reverse_append, dropWhile_append_eq]
  by_cases hc : (v.reverse.dropWhile isPySpace).isEmpty
  · rw [if_pos hc, ha, List.reverse_reverse]
    have : v.reverse.dropWhile isPySpace = [] := by
      simpa [List.isEmpty_iff] using hc
    rw [this]
    simp
  · rw [if_neg hc, List.reverse_append, List.reverse_reverse]

theorem stripRight_stripRight (v : List Char) :
    stripRight (stripRight v) = stripRight v := by
  unfold stripRight
  rw [List.reverse_reverse, dropWhile_dropWhile]

theorem pyStrip_stripRight (v : List Char) :
    pyStrip (stripRight v) = pyStrip v := by
  unfold pyStrip
  rw [stripRight_stripRight]

theorem splitOnColon_ne_nil (s : List Char) : splitOnColon s ≠ [] := by
  cases s with
  | nil => simp [splitOnColon]
  | cons c cs =>
    by_cases h : c = ':'
    · simp [splitOnColon, h]
    · simp only [splitOnColon, if_neg h]
      cases splitOnColon cs <;> simp

theorem splitOnColon_append_colon (a w : List Char) (ha : ':' ∉ a) :
    splitOnColon (a ++ ':' :: w) = a :: splitOnColon w := by
  induction a with
  | nil => simp [splitOnColon]
  | cons c t ih =>
    simp only [List.mem_cons, not_or] at ha
    obtain ⟨h1, h2⟩ := ha
    have hc : ¬ c = ':' := fun hcc => h1 hcc.symm
    simp only [List.cons_append, splitOnColon, if_neg hc]
    rw [show t.append (':' :: w) = t ++ ':' :: w from rfl, ih h2]

theorem joinColon_cons_head (c : Char) (g : List Char)
    (gs : List (List Char)) :
    joinColon ((c :: g) :: gs) = c :: joinColon (g :: gs) := by
  cases gs <;> simp [joinColon]

theorem joinColon_splitOnColon (s : List Char) :
    joinColon (splitOnColon s) = s := by
  induction s with
  | nil => rfl
  | cons c cs ih =>
    by_cases h : c = ':'
    · subst h
      simp only [splitOnColon, if_pos rfl]
      obtain ⟨g, gs, hgs⟩ : ∃ g gs, splitOnColon cs = g :: gs := by
        cases hs : splitOnColon cs with
        | nil => exact absurd hs (splitOnColon_ne_nil cs)
        | cons g gs => exact ⟨g, gs, rfl⟩
      rw [hgs]
      rw [hgs] at ih
      simpa [joinColon] using ih
    · simp only [splitOnColon, if_neg h]
      obtain ⟨g, gs, hgs⟩ : ∃ g gs, splitOnColon cs = g :: gs := by
        cases hs : splitOnColon cs with
        | nil => exact absurd hs (splitOnColon_ne_nil cs)
        | cons g gs => exact ⟨g, gs, rfl⟩
      rw [hgs]
      rw [hgs] at ih
      rw [joinColon_cons_head, ih]

/-- The raw text of a `Date` header line: `"% Date:" ++ value`. -/
def dateLinePrefix : List Char := ("% Date:").data

theorem pyStrip_dateLine (v : List Char) :
    pyStrip (dateLinePrefix ++ v) = dateLinePrefix ++ stripRight v := by
  unfold pyStrip
  rw [stripRight_append dateLinePrefix v (by decide)]
  show stripLeft ('%' :: ((" Date:").data ++ stripRight v)) = _
  unfold stripLeft
  rw [List.dropWhile_cons, if_neg (by decide)]
  rfl

theorem extractLines_date_line (v : List Char) (rest : List (List Char))
    (m : ComsolMeta) :
    extractLines ((dateLinePrefix ++ v) :: rest) m
      = match parseComsolDate (pyStrip v) with
        | none => .error (.dateParse (pyStrip v))
        | some t => extractLines rest { m with date := some (formatIsoZ t) } := by
  have hdrop : (dateLinePrefix ++ stripRight v).drop 1
      = (" Date").data ++ ':' :: stripRight v := rfl
  simp only [extractLines, pyStrip_dateLine]
  rw [if_pos (show (dateLinePrefix ++ stripRight v).head? = some '%' from rfl)]
  rw [hdrop, splitOnColon_append_colon _ _ (by decide)]
  simp only [List.headD_cons, List.tail_cons]
  rw [joinColon_splitOnColon, pyStrip_stripRight]
  rw [show pyStrip ((" Date").data) = ("Date").data from by decide]
  simp only [processEntry, if_neg (show ¬ ("Date").data = ("Version").data from by decide),
    if_pos rfl]
  cases parseComsolDate (pyStrip v) <;> rfl

/-- C6: on a header line with key `Date`, the extractor reparses the
value from the fixed layout `"%b %d %Y, %H:%M"`: if the value matches,
the mapping stores the ISO-8601 UTC rendering
`YYYY-MM-DDThh:mm:ssZ` (seconds `00`) and the scan continues; whenever
the value does not match the layout (including calendar-invalid
dates), the extractor raises the `strptime` `ValueError` (spec:
`ParseError`). -/
theorem extract_date_header (v : List Char) (rest : List (List Char))
    (m : ComsolMeta) :
    (parseComsolDate (pyStrip v) = none →
      extractLines ((dateLinePrefix ++ v) :: rest) m
        = .error (.dateParse (pyStrip v))) ∧
    (∀ t, parseComsolDate (pyStrip v) = some t →
      extractLines ((dateLinePrefix ++ v) :: rest) m
        = extractLines rest { m with date := some (formatIsoZ t) }) := by
  constructor
  · intro h
    rw [extractLines_date_line, h]
  · intro t h
    rw [extractLines_date_line, h]

/-- C6 witness: the example `Date` line stores the ISO rendering, and a
malformed `Date` line raises the parse error. -/
theorem extract_date_header_witness :
    extractLines [dateLinePrefix ++ (" Jan 5 2023, 10:30").data] {}
      = extractLines [] { date := some (("2023-01-05T10:30:00Z").data) } ∧
    extractLines [dateLinePrefix ++ (" Feb 30 2023, 10:30").data] {}
      = .error (.dateParse (("Feb 30 2023, 10:30").data)) := by
  constructor
  · have h := (extract_date_header (" Jan 5 2023, 10:30").data [] {}).2
      ⟨1, 5, 2023, 10, 30⟩ (by decide)
    rw [h]
    rfl
  · have h := (extract_date_header (" Feb 30 2023, 10:30").data [] {}).1 (by decide)
    rw [h]
    rfl

/-- C10: for a header comment line whose key is exactly `Nodes`,
`Expressions` or `Dimensions` but whose value is not a decimal integer,
the extractor raises the uncaught `ValueError` of `int()` instead of
dropping the line; in particular a `% Nodes` line with no colon at all
yields the empty value and raises it. -/
theorem comsol_int_fields_value_error (v : List Char) (m : ComsolMeta)
    (hv : pyIntParse v = none) :
    processEntry (("Nodes").data) v m = .error (.intParse v) ∧
    processEntry (("Expressions").data) v m = .error (.intParse v) ∧
    processEntry (("Dimensions").data) v m = .error (.intParse v) ∧
    extractComsolMetadata [("% Nodes").data] = .error (.intParse []) := by
  refine ⟨?_, ?_, ?_, rfl⟩
  · simp only [processEntry,
      if_neg (show ¬ ("Nodes").data = ("Version").data from by decide),
      if_neg (show ¬ ("Nodes").data = ("Date").data from by decide),
      if_pos rfl, if_true, hv]
  · simp only [processEntry,
      if_neg (show ¬ ("Expressions").data = ("Version").data from by decide),
      if_neg (show ¬ ("Expressions").data = ("Date").data from by decide),
      if_neg (show ¬ ("Expressions").data = ("Nodes").data from by decide),
      if_pos rfl, if_true, hv]
  · simp only [processEntry,
      if_neg (show ¬ ("Dimensions").data = ("Version").data from by decide),
      if_neg (show ¬ ("Dimensions").data = ("Date").data from by decide),
      if_neg (show ¬ ("Dimensions").data = ("Nodes").data from by decide),
      if_neg (show ¬ ("Dimensions").data = ("Expressions").data from by decide),
      if_pos rfl, if_true, hv]

/-- C10 witness: a non-numeric `Nodes` value raises the conversion
error. -/
theorem comsol_int_fields_value_error_witness :
    processEntry (("Nodes").data) (("abc").data) {}
      = .error (.intParse (("abc").data)) :=
  (comsol_int_fields_value_error (("abc").data) {} (by decide)).1

/- ### `extract_article_metadata` (`utils.py`) -/

/-- Python values stored in the metadata dictionaries. -/
inductive PyVal where
  | str (s : String)
  | int (n : ℤ)
  | list (xs : List PyVal)
  | dict (entries : List (String × PyVal))

/-- A Python dictionary: an association list with (in Python) unique
keys, in insertion order. -/
abbrev PyDict := List (String × PyVal)

/-- `d[k]` lookup. -/
def dictLookup (d : PyDict) (k : String) : Option PyVal :=
  (d.find? (fun p => p.1 == k)).map (fun p => p.2)

/-- Key removal, as performed by `dict.pop`. -/
def dictErase (d : PyDict) (k : String) : PyDict :=
  d.eraseP (fun p => p.1 == k)

/-- The exceptions `extract_article_metadata` can raise: `KeyError`
from `pop` on a missing mandatory key, `TypeError` from iterating a
non-list `authors` value. -/
inductive ArticleErr where
  | keyError (k : String)
  | typeError
deriving DecidableEq

/-- `metadata.pop(k)`: the value plus the dictionary without the key;
`KeyError` when absent. -/
def popRequired (d : PyDict) (k : String) :
    Except ArticleErr (PyVal × PyDict) :=
  match dictLookup d k with
  | some v => .ok (v, dictErase d k)
  | none => .error (.keyError k)

/-- `metadata.pop(k, default)`. -/
def popDefault (d : PyDict) (k : String) (dflt : PyVal) : PyVal × PyDict :=
  ((dictLookup d k).getD dflt, dictErase d k)

/-- `extract_article_metadata`: pops `title`, `description`,
`keywords`, `categories`, `authors`, `license`, `type` from the
caller's mapping in that order (mutating it), wraps each author id as
`{"id": id}`, fills the documented defaults, and returns the new
seven-field article mapping.  The result pairs the returned mapping
with the caller's mutated mapping. -/
def extract_article_metadata (metadata : PyDict) :
    Except ArticleErr (PyDict × PyDict) :=
  match popRequired metadata "title" with
  | .error e => .error e
  | .ok (title, m1) =>
    match popRequired m1 "description" with
    | .error e => .error e
    | .ok (description, m2) =>
      let kw := popDefault m2 "keywords" (.list [.str "scan data"])
      let cat := popDefault kw.2 "categories"
        (.list [.int 30103, .int 30091, .int 30262])
      match popRequired cat.2 "authors" with
      | .error e => .error e
      | .ok (authorsV, m5) =>
        match authorsV with
        | .list authorIds =>
          let lic := popDefault m5 "license" (.int 1)
          let dt := popDefault lic.2 "type" (.str "dataset")
          .ok ([("title", title), ("description", description),
                ("keywords", kw.1), ("categories", cat.1),
                ("authors", .list (authorIds.map fun a => .dict [("id", a)])),
                ("license", lic.1), ("defined_type", dt.1)], dt.2)
        | _ => .error .typeError

theorem dictLookup_erase_ne (d : PyDict) (k1 k2 : String) (h : k1 ≠ k2) :
    dictLookup (dictErase d k2) k1 = dictLookup d k1 := by
  induction d with
  | nil => rfl
  | cons a t ih =>
    by_cases hk : a.1 == k2
    · have ha1 : a.1 = k2 := by simpa using hk
      have hne : (a.1 == k1) = false := by
        simp [ha1]
        exact fun hc => h hc.symm
      simp [dictErase, List.eraseP_cons, hk, dictLookup, List.find?, hne]
    · by_cases hk1 : a.1 == k1
      · simp [dictErase, List.eraseP_cons, hk, dictLookup, List.find?, hk1]
      · simp only [dictErase, List.eraseP_cons, hk, cond_false]
        simp only [dictLookup, List.find?, hk1]
        exact ih

theorem dictErase_eq_filter (d : PyDict) (k : String)
    (hnd : (d.map Prod.fst).Nodup) :
    dictErase d k = d.filter (fun p => !(p.1 == k)) := by
  induction d with
  | nil => rfl
  | cons a t ih =>
    simp only [List.map_cons, List.nodup_cons] at hnd
    obtain ⟨hna, hnt⟩ := hnd
    by_cases hk : a.1 == k
    · have ha1 : a.1 = k := by simpa using hk
      have hfix : t.filter (fun p => !(p.1 == k)) = t := by
        apply List.filter_eq_self.mpr
        intro b hb
        have hbk : b.1 ≠ k := by
          intro hc
          have hmem : b.1 ∈ t.map Prod.fst := List.mem_map_of_mem Prod.fst hb
          rw [hc, ← ha1] at hmem
          exact hna hmem
        simpa using hbk
      simp [dictErase, List.eraseP_cons, hk, List.filter_cons, hfix]
    · simp [dictErase, List.eraseP_cons, hk, List.filter_cons, ih hnt]
      exact ih hnt

theorem keysNodup_filter (d : PyDict) (q : String × PyVal → Bool)
    (hnd : (d.map Prod.fst).Nodup) :
    ((d.filter q).map Prod.fst).Nodup :=
  List.Nodup.sublist
    ((List.filter_sublist d : (d.filter q).Sublist d).map Prod.fst) hnd

/-- C9: for a metadata mapping (with Python-dict unique keys)
containing `title`, `description` and `authors` (a list of ids), the
call removes `title`, `description`, `authors` — and `keywords`,
`categories`, `license`, `type` when present — from the caller's
mapping, leaves every other entry unchanged (in order), and returns a
new seven-field article mapping whose values are the popped ones, with
the documented defaults for absent optional keys and each author id
wrapped as `{"id": id}`. -/
theorem extract_article_metadata_spec (metadata : PyDict) (tv dv : PyVal)
    (authorIds : List PyVal)
    (hnd : (metadata.map Prod.fst).Nodup)
    (ht : dictLookup metadata "title" = some tv)
    (hd : dictLookup metadata "description" = some dv)
    (ha : dictLookup metadata "authors" = some (.list authorIds)) :
    extract_article_metadata metadata
      = .ok ([("title", tv), ("description", dv),
              ("keywords", (dictLookup metadata "keywords").getD
                (.list [.str "scan data"])),
              ("categories", (dictLookup metadata "categories").getD
                (.list [.int 30103, .int 30091, .int 30262])),
              ("authors", .list (authorIds.map fun a => .dict [("id", a)])),
              ("license", (dictLookup metadata "license").getD (.int 1)),
              ("defined_type", (dictLookup metadata "type").getD
                (.str "dataset"))],
            metadata.filter fun p =>
              !(p.1 == "title") && !(p.1 == "description") &&
              !(p.1 == "keywords") && !(p.1 == "categories") &&
              !(p.1 == "authors") && !(p.1 == "license") &&
              !(p.1 == "type")) := by
  have h1 : dictLookup (dictErase metadata "title") "description" = some dv := by
    rw [dictLookup_erase_ne _ _ _ (by decide)]
    exact hd
  have hk : dictLookup (dictErase (dictErase metadata "title") "description")
      "keywords" = dictLookup metadata "keywords" := by
    rw [dictLookup_erase_ne _ _ _ (by decide),
      dictLookup_erase_ne _ _ _ (by decide)]
  have hc : dictLookup (dictErase (dictErase (dictErase metadata "title")
      "description") "keywords") "categories"
      = dictLookup metadata "categories" := by
    rw [dictLookup_erase_ne _ _ _ (by decide),
      dictLookup_erase_ne _ _ _ (by decide),
      dictLookup_erase_ne _ _ _ (by decide)]
  have h4 : dictLookup (dictErase (dictErase (dictErase (dictErase metadata
      "title") "description") "keywords") "categories") "authors"
      = some (.list authorIds) := by
    rw [dictLookup_erase_ne _ _ _ (by decide),
      dictLookup_erase_ne _ _ _ (by decide),
      dictLookup_erase_ne _ _ _ (by decide),
      dictLookup_erase_ne _ _ _ (by decide)]
    exact ha
  have hl : dictLookup (dictErase (dictErase (dictErase (dictErase (dictErase
      metadata "title") "description") "keywords") "categories") "authors")
      "license" = dictLookup metadata "license" := by
    rw [dictLookup_erase_ne _ _ _ (by decide),
      dictLookup_erase_ne _ _ _ (by decide),
      dictLookup_erase_ne _ _ _ (by decide),
      dictLookup_erase_ne _ _ _ (by decide),
      dictLookup_erase_ne _ _ _ (by decide)]
  have hty : dictLookup (dictErase (dictErase (dictErase (dictErase (dictErase
      (dictErase metadata "title") "description") "keywords") "categories")
      "authors") "license") "type" = dictLookup metadata "type" := by
    rw [dictLookup_erase_ne _ _ _ (by decide),
      dictLookup_erase_ne _ _ _ (by decide),
      dictLookup_erase_ne _ _ _ (by decide),
      dictLookup_erase_ne _ _ _ (by decide),
      dictLookup_erase_ne _ _ _ (by decide),
      dictLookup_erase_ne _ _ _ (by decide)]
  have e1 : popRequired metadata "title"
      = .ok (tv, dictErase metadata "title") := by
    simp [popRequired, ht]
  have e2 : popRequired (dictErase metadata "title") "description"
      = .ok (dv, dictErase (dictErase metadata "title") "description") := by
    simp [popRequired, h1]
  have e5 : popRequired (dictErase (dictErase (dictErase (dictErase metadata
      "title") "description") "keywords") "categories") "authors"
      = .ok (.list authorIds,
          dictErase (dictErase (dictErase (dictErase (dictErase metadata
            "title") "description") "keywords") "categories") "authors") := by
    simp [popRequired, h4]
  have hrest : dictErase (dictErase (dictErase (dictErase (dictErase
      (dictErase (dictErase metadata "title") "description") "keywords")
      "categories") "authors") "license") "type"
      = metadata.filter fun p =>
          !(p.1 == "title") && !(p.1 == "description") &&
          !(p.1 == "keywords") && !(p.1 == "categories") &&
          !(p.1 == "authors") && !(p.1 == "license") &&
          !(p.1 == "type") := by
    rw [dictErase_eq_filter _ _ hnd]
    rw [dictErase_eq_filter _ _ (keysNodup_filter metadata _ hnd),
      List.filter_filter]
    rw [dictErase_eq_filter _ _ (keysNodup_filter metadata _ hnd),
      List.filter_filter]
    rw [dictErase_eq_filter _ _ (keysNodup_filter metadata _ hnd),
      List.filter_filter]
    rw [dictErase_eq_filter _ _ (keysNodup_filter metadata _ hnd),
      List.filter_filter]
    rw [dictErase_eq_filter _ _ (keysNodup_filter metadata _ hnd),
      List.filter_filter]
    rw [dictErase_eq_filter _ _ (keysNodup_filter metadata _ hnd),
      List.filter_filter]
    apply List.filter_congr
    intro a _
    simp [Bool.and_comm, Bool.and_left_comm, Bool.and_assoc]
  simp only [extract_article_metadata, e1, e2, popDefault, e5]
  rw [hk, hc, hl, hty, hrest]

/-- C9 witness: a concrete four-entry mapping; the unrelated `extra`
entry is the only one left in the caller's mapping. -/
theorem extract_article_metadata_spec_witness :
    extract_article_metadata
        [("title", .str "T"), ("extra", .int 9), ("description", .str "D"),
         ("authors", .list [.int 5])]
      = .ok ([("title", .str "T"), ("description", .str "D"),
              ("keywords", .list [.str "scan data"]),
              ("categories", .list [.int 30103, .int 30091, .int 30262]),
              ("authors", .list [.dict [("id", .int 5)]]),
              ("license", .int 1), ("defined_type", .str "dataset")],
             [("extra", .int 9)]) := by
  have h := extract_article_metadata_spec
    [("title", .str "T"), ("extra", .int 9), ("description", .str "D"),
     ("authors", .list [.int 5])]
    (.str "T") (.str "D") [.int 5] (by decide) rfl rfl rfl
  rw [h]
  rfl
